import Mathlib

/-!
Shallow embedding of the cluster DDL coordination layer (`cluster::createDatabase`,
`cluster::createCollection`, `cluster::createLegacyUnshardedCollection` and their
helpers `buildUnshardedRequestsForAllShards` / `executeCommandAgainstFirstShard`).

External collaborators (topology cache, config shard, network transport) are
modelled as oracles supplied in an environment record; the control flow, the
order of status checks and the emitted side effects (session yield/unyield,
network sends, cache invalidations) follow the source line by line.  The
`uassert` family is modelled as short-circuiting returns carrying the events
that already happened.
-/

namespace ClusterDDL

/-- Error codes that the DDL layer inspects by name; every other code is
carried by the catch-all constructor with a numeric payload. -/
inductive ErrorCode where
  | NamespaceNotFound
  | NamespaceExists
  | IllegalOperation
  | other (n : Nat)
  deriving DecidableEq, Repr

/-- Result of a fallible call, mirroring StatusWith from the source: either a
value or an error code. -/
inductive StatusWith (α : Type) where
  | ok (val : α)
  | err (code : ErrorCode)
  deriving DecidableEq, Repr

/-- Shard identifiers are strings compared lexicographically; we represent them
as character lists so that the lexicographic order is the list order. -/
abbrev ShardId := List Char

/-- Snapshot of a cached database entry: its primary shard and database version. -/
structure DbInfo where
  primary : ShardId
  version : Nat
  deriving DecidableEq, Repr

/-- Observable side effects of one DDL invocation, in program order. -/
inductive Event where
  | yieldSession
  | unyieldSession
  | authorityCall
  | dbCacheInvalidate (v : Nat)
  | shardSend (target : ShardId)
  | collCacheInvalidate (v : Nat) (primary : ShardId)
  deriving DecidableEq, Repr

/-- The config server's reply to a create-database command: the command status,
the write-concern status, and the database version carried in the body. -/
structure ConfigCreateDbResponse where
  commandStatus : Option ErrorCode
  writeConcernStatus : Option ErrorCode
  databaseVersion : Nat
  deriving DecidableEq, Repr

/-- Oracle environment for one `createDatabase` run: the first topology-cache
lookup, the transport-level outcome of the nested config-server command, the
status returned by the unyield step, and the cache lookup performed after the
invalidation. -/
structure CreateDbEnv where
  cacheFirst : StatusWith DbInfo
  configResponse : StatusWith ConfigCreateDbResponse
  unyieldStatus : Option ErrorCode
  cacheAfter : StatusWith DbInfo
  deriving DecidableEq, Repr

/-- Embedding of `cluster::createDatabase`.  The cache is consulted first; only
a NamespaceNotFound miss enters the creation protocol, in which the session is
yielded, the authority is called, and — only when the transport produced a
response — the session is unyielded before the response's write-concern and
command statuses are checked.  On success the database version from the
response keys a cache invalidation and the cache is re-queried. -/
def createDatabase (env : CreateDbEnv) : List Event × StatusWith DbInfo :=
  match env.cacheFirst with
  | StatusWith.err ErrorCode.NamespaceNotFound =>
    let ev := [Event.yieldSession, Event.authorityCall]
    match env.configResponse with
    | StatusWith.err e => (ev, StatusWith.err e)
    | StatusWith.ok resp =>
      let ev := ev ++ [Event.unyieldSession]
      match env.unyieldStatus with
      | some e => (ev, StatusWith.err e)
      | none =>
        match resp.writeConcernStatus with
        | some e => (ev, StatusWith.err e)
        | none =>
          match resp.commandStatus with
          | some e => (ev, StatusWith.err e)
          | none =>
            (ev ++ [Event.dbCacheInvalidate resp.databaseVersion], env.cacheAfter)
  | dbStatus => ([], dbStatus)

/-- A concrete environment whose first cache lookup already holds a snapshot. -/
def envFastPath : CreateDbEnv :=
  { cacheFirst := StatusWith.ok ⟨['s', 'h', 'A'], 3⟩
    configResponse := StatusWith.err (ErrorCode.other 0)
    unyieldStatus := none
    cacheAfter := StatusWith.err ErrorCode.NamespaceNotFound }

/-- A concrete environment whose first cache lookup fails with a non-not-found
code (for instance a transient network failure inside the read-through cache). -/
def envCacheNetErr : CreateDbEnv :=
  { cacheFirst := StatusWith.err (ErrorCode.other 89)
    configResponse := StatusWith.ok ⟨none, none, 4⟩
    unyieldStatus := none
    cacheAfter := StatusWith.ok ⟨['s', 'h', 'A'], 4⟩ }

/-- Helper: a cache hit returns the snapshot with an empty event trace. -/
theorem createDatabase_cache_hit (env : CreateDbEnv) (info : DbInfo)
    (h : env.cacheFirst = StatusWith.ok info) :
    createDatabase env = ([], StatusWith.ok info) := by
  unfold createDatabase
  rw [h]

/-- C6: when the topology cache lookup returns a valid snapshot, createDatabase
returns that snapshot immediately, with no network call to the authority, no
yield, and no cache invalidation (the event trace is empty). -/
theorem createDatabase_fast_path (env : CreateDbEnv) (info : DbInfo)
    (h : env.cacheFirst = StatusWith.ok info) :
    createDatabase env = ([], StatusWith.ok info) :=
  createDatabase_cache_hit env info h

/-- Witness for C6 at a concrete environment. -/
theorem createDatabase_fast_path_witness :
    envFastPath.cacheFirst = StatusWith.ok ⟨['s', 'h', 'A'], 3⟩ ∧
    createDatabase envFastPath = ([], StatusWith.ok ⟨['s', 'h', 'A'], 3⟩) :=
  ⟨rfl, createDatabase_fast_path envFastPath ⟨['s', 'h', 'A'], 3⟩ rfl⟩

/-- C9: a cache lookup error other than NamespaceNotFound is surfaced to the
caller unchanged, and no create-database request is sent to the authority (the
event trace is empty): only NamespaceNotFound triggers the creation protocol. -/
theorem createDatabase_cache_error_surfaced (env : CreateDbEnv) (e : ErrorCode)
    (h1 : env.cacheFirst = StatusWith.err e) (h2 : e ≠ ErrorCode.NamespaceNotFound) :
    createDatabase env = ([], StatusWith.err e) := by
  unfold createDatabase
  rw [h1]
  cases e with
  | NamespaceNotFound => exact absurd rfl h2
  | NamespaceExists => rfl
  | IllegalOperation => rfl
  | other n => rfl

/-- Witness for C9 at a concrete environment with a transient-network code. -/
theorem createDatabase_cache_error_surfaced_witness :
    envCacheNetErr.cacheFirst = StatusWith.err (ErrorCode.other 89) ∧
    ErrorCode.other 89 ≠ ErrorCode.NamespaceNotFound ∧
    createDatabase envCacheNetErr = ([], StatusWith.err (ErrorCode.other 89)) :=
  ⟨rfl, by decide, createDatabase_cache_error_surfaced envCacheNetErr (ErrorCode.other 89) rfl (by decide)⟩

/-- A concrete environment where the cache misses and the nested config-server
call then fails at the transport level (the StatusWith itself is an error). -/
def envC1err : CreateDbEnv :=
  { cacheFirst := StatusWith.err ErrorCode.NamespaceNotFound
    configResponse := StatusWith.err (ErrorCode.other 6)
    unyieldStatus := none
    cacheAfter := StatusWith.err ErrorCode.NamespaceNotFound }

/-- A concrete environment where the nested call returns a response whose
command status is an error while transport and unyield both succeed. -/
def envC1ok : CreateDbEnv :=
  { cacheFirst := StatusWith.err ErrorCode.NamespaceNotFound
    configResponse := StatusWith.ok ⟨some (ErrorCode.other 55), none, 9⟩
    unyieldStatus := none
    cacheAfter := StatusWith.ok ⟨['s', 'h', 'A'], 9⟩ }

/-- C1 counterexample: after a successful yield, a transport-level failure of
the nested create-database call is surfaced directly and the unyield step is
never reached — unyield is not invoked on every failing exit of the nested
call, refuting the claim as stated. -/
theorem createDatabase_unyield_skipped_on_transport_error :
    Event.yieldSession ∈ (createDatabase envC1err).1 ∧
    Event.authorityCall ∈ (createDatabase envC1err).1 ∧
    (createDatabase envC1err).2 = StatusWith.err (ErrorCode.other 6) ∧
    Event.unyieldSession ∉ (createDatabase envC1err).1 := by
  decide

/-- C1 (amended): after a successful yield, whenever the nested create-database
call produces a response — even one carrying a write-concern or command error —
unyield is invoked exactly once before those statuses are checked, and (when
unyield itself succeeds) the surfaced error is the response's own error; but
when the nested call fails at the transport level, its error is surfaced
directly and unyield is not invoked. -/
theorem createDatabase_unyield_discipline (env : CreateDbEnv)
    (h : env.cacheFirst = StatusWith.err ErrorCode.NamespaceNotFound) :
    (∀ resp, env.configResponse = StatusWith.ok resp →
      ((createDatabase env).1.count Event.unyieldSession = 1 ∧
       (env.unyieldStatus = none → ∀ e, resp.writeConcernStatus = some e →
         (createDatabase env).2 = StatusWith.err e) ∧
       (env.unyieldStatus = none → resp.writeConcernStatus = none →
         ∀ e, resp.commandStatus = some e → (createDatabase env).2 = StatusWith.err e))) ∧
    (∀ e, env.configResponse = StatusWith.err e →
      (createDatabase env).2 = StatusWith.err e ∧
      Event.unyieldSession ∉ (createDatabase env).1) := by
  constructor
  · intro resp hr
    unfold createDatabase
    rw [h, hr]
    rcases hu : env.unyieldStatus with _ | e0
    · rcases hw : resp.writeConcernStatus with _ | e1
      · rcases hc : resp.commandStatus with _ | e2 <;> simp [hw, hc]
      · simp [hw]
    · simp [hu]
  · intro e hr
    unfold createDatabase
    rw [h, hr]
    simp

/-- Witness for the amended C1 at a concrete environment whose nested call
returns a command-level error. -/
theorem createDatabase_unyield_discipline_witness :
    envC1ok.cacheFirst = StatusWith.err ErrorCode.NamespaceNotFound ∧
    envC1ok.configResponse = StatusWith.ok ⟨some (ErrorCode.other 55), none, 9⟩ ∧
    (createDatabase envC1ok).1.count Event.unyieldSession = 1 ∧
    (createDatabase envC1ok).2 = StatusWith.err (ErrorCode.other 55) := by
  refine ⟨rfl, rfl, ?_, ?_⟩
  · exact ((createDatabase_unyield_discipline envC1ok rfl).1 _ rfl).1
  · exact ((createDatabase_unyield_discipline envC1ok rfl).1 _ rfl).2.2 rfl rfl _ rfl

/-- Version stamp attached to an outgoing shard command: either the fixed
UNSHARDED stamp or a concrete distribution version. -/
inductive ShardVersionTag where
  | unsharded
  | versioned (v : Nat)
  deriving DecidableEq, Repr

/-- Write-concern field attached to an outgoing command body. -/
inductive WcField where
  | majority
  | explicitWc (w : Nat)
  deriving DecidableEq, Repr

/-- An outgoing command object: an opaque base body plus the fields the DDL
layer may attach (shard-version stamp, database version, write concern). -/
structure Cmd where
  base : Nat
  shardVersion : Option ShardVersionTag := none
  dbVersion : Option Nat := none
  wc : Option WcField := none
  deriving DecidableEq, Repr

/-- Embedding of appendShardVersion: stamp the command with a shard version. -/
def appendShardVersion (cmdObj : Cmd) (sv : ShardVersionTag) : Cmd :=
  { cmdObj with shardVersion := some sv }

/-- One request of an AsyncRequestsSender batch: a target shard and the command
object to send to it. -/
structure Request where
  shardId : ShardId
  cmd : Cmd
  deriving DecidableEq, Repr

/-- Embedding of buildUnshardedRequestsForAllShards: stamp the command once
with the UNSHARDED shard version and build one request per target shard. -/
def buildUnshardedRequestsForAllShards (shardIds : List ShardId) (cmdObj : Cmd) :
    List Request :=
  let cmdToSend := appendShardVersion cmdObj ShardVersionTag.unsharded
  shardIds.map (fun s => ⟨s, cmdToSend⟩)

/-- C8: on the unsharded-dispatch path one request is built per target shard
identifier, in order, and every outgoing command carries the fixed UNSHARDED
shard-version stamp. -/
theorem buildUnshardedRequestsForAllShards_unsharded_stamp
    (ids : List ShardId) (cmdObj : Cmd) :
    (buildUnshardedRequestsForAllShards ids cmdObj).map Request.shardId = ids ∧
    (buildUnshardedRequestsForAllShards ids cmdObj).all
      (fun r => decide (r.cmd.shardVersion = some ShardVersionTag.unsharded)) = true := by
  constructor
  · simp only [buildUnshardedRequestsForAllShards, List.map_map]
    exact List.map_id ids
  · simp [buildUnshardedRequestsForAllShards, List.all_eq_true, appendShardVersion]

/-- Inputs to the write-concern selection of `cluster::createCollection`:
whether the request is a sharded creation, whether the namespace is in the
config database, the caller-supplied write concern when its provenance is
client-supplied, and whether the operation runs in a multi-document
transaction. -/
structure CreateCollCtx where
  isSharded : Bool
  isConfigDB : Bool
  clientWc : Option Nat
  inMultiDocTxn : Bool
  deriving DecidableEq, Repr

/-- Embedding of the cmdObjWithWc lambda of `cluster::createCollection`: a
sharded creation in the config database gets majority write concern; otherwise
a client-supplied write concern is propagated; otherwise no write concern is
attached inside a multi-document transaction, and majority is attached outside
one. -/
def effectiveWriteConcern (c : CreateCollCtx) : Option WcField :=
  if c.isSharded && c.isConfigDB then some WcField.majority
  else
    match c.clientWc with
    | some w => some (WcField.explicitWc w)
    | none => if c.inMultiDocTxn then none else some WcField.majority

/-- Write-concern selection as the claim states it, for comparison: inside an
active multi-statement transaction an explicit caller write concern is ignored
in favor of the transaction's write concern (no field attached); outside a
transaction an explicit caller write concern is honored, else majority. -/
def claimedWriteConcern (c : CreateCollCtx) : Option WcField :=
  if c.inMultiDocTxn then none
  else
    match c.clientWc with
    | some w => some (WcField.explicitWc w)
    | none => some WcField.majority

/-- C2 counterexample: inside a multi-document transaction a client-supplied
write concern is propagated by the code, not replaced by the transaction's
write concern as the claim states; and for a sharded creation in the config
database the code forces majority even over an explicit caller write concern. -/
theorem effectiveWriteConcern_claim_counterexample :
    effectiveWriteConcern ⟨false, false, some 1, true⟩ = some (WcField.explicitWc 1) ∧
    claimedWriteConcern ⟨false, false, some 1, true⟩ = none ∧
    effectiveWriteConcern ⟨false, false, some 1, true⟩ ≠
      claimedWriteConcern ⟨false, false, some 1, true⟩ ∧
    effectiveWriteConcern ⟨true, true, some 2, false⟩ = some WcField.majority ∧
    claimedWriteConcern ⟨true, true, some 2, false⟩ = some (WcField.explicitWc 2) := by
  decide

/-- C2 (amended): the effective write concern is chosen by this priority:
majority for a sharded creation in the config database (overriding even an
explicit caller write concern); otherwise a caller-supplied explicit write
concern, honored verbatim even inside a multi-statement transaction; otherwise,
inside a transaction, no write concern is attached so the transaction's own
write concern applies; otherwise majority. -/
theorem effectiveWriteConcern_priority (c : CreateCollCtx) :
    (c.isSharded = true → c.isConfigDB = true →
      effectiveWriteConcern c = some WcField.majority) ∧
    ((c.isSharded && c.isConfigDB) = false → ∀ w, c.clientWc = some w →
      effectiveWriteConcern c = some (WcField.explicitWc w)) ∧
    ((c.isSharded && c.isConfigDB) = false → c.clientWc = none →
      c.inMultiDocTxn = true → effectiveWriteConcern c = none) ∧
    ((c.isSharded && c.isConfigDB) = false → c.clientWc = none →
      c.inMultiDocTxn = false → effectiveWriteConcern c = some WcField.majority) := by
  rcases c with ⟨s, cfg, w, t⟩
  refine ⟨?_, ?_, ?_, ?_⟩
  · intro hs hc
    simp only at hs hc
    simp [effectiveWriteConcern, hs, hc]
  · intro h w0 hw
    simp only at h hw
    simp [effectiveWriteConcern, h, hw]
  · intro h hw ht
    simp only at h hw ht
    simp [effectiveWriteConcern, h, hw, ht]
  · intro h hw ht
    simp only at h hw ht
    simp [effectiveWriteConcern, h, hw, ht]

/-- Witness for the amended C2, exercising all four priority cases. -/
theorem effectiveWriteConcern_priority_witness :
    effectiveWriteConcern ⟨true, true, some 7, true⟩ = some WcField.majority ∧
    effectiveWriteConcern ⟨false, true, some 7, true⟩ = some (WcField.explicitWc 7) ∧
    effectiveWriteConcern ⟨false, true, none, true⟩ = none ∧
    effectiveWriteConcern ⟨false, true, none, false⟩ = some WcField.majority := by
  refine ⟨?_, ?_, ?_, ?_⟩
  · exact (effectiveWriteConcern_priority ⟨true, true, some 7, true⟩).1 rfl rfl
  · exact (effectiveWriteConcern_priority ⟨false, true, some 7, true⟩).2.1 rfl 7 rfl
  · exact (effectiveWriteConcern_priority ⟨false, true, none, true⟩).2.2.1 rfl rfl rfl
  · exact (effectiveWriteConcern_priority ⟨false, true, none, false⟩).2.2.2 rfl rfl rfl

/-- Embedding of the target selection of executeCommandAgainstFirstShard: sort
the live shard identifiers ascending and take the first; the empty directory
gives none (the IllegalOperation guard).  The source sorts with std sort;
since the order on identifiers is total and antisymmetric the sorted list is
unique, so insertion sort embeds it faithfully. -/
def firstShardTarget (shardIds : List ShardId) : Option ShardId :=
  (List.insertionSort (· ≤ ·) shardIds).head?

/-- Head of the sorted list is the minimum of the original list. -/
theorem sortedHead_eq_min (l : List ShardId) :
    (List.insertionSort (· ≤ ·) l).head? = l.min? := by
  haveI : Std.Antisymm (fun (a b : ShardId) => a ≤ b) :=
    ⟨@fun a b h1 h2 => le_antisymm h1 h2⟩
  rcases hs : List.insertionSort (· ≤ ·) l with _ | ⟨m, rest⟩
  · have hperm : List.Perm (List.insertionSort (· ≤ ·) l) l :=
      List.perm_insertionSort (· ≤ ·) l
    rw [hs] at hperm
    rw [hperm.symm.eq_nil]
    rfl
  · have hsorted : List.Sorted (· ≤ ·) (List.insertionSort (· ≤ ·) l) :=
      List.sorted_insertionSort (· ≤ ·) l
    rw [hs] at hsorted
    have hperm : List.Perm (List.insertionSort (· ≤ ·) l) l :=
      List.perm_insertionSort (· ≤ ·) l
    rw [hs] at hperm
    have hmem : m ∈ l := hperm.subset (List.mem_cons_self m rest)
    have hle : ∀ b ∈ l, m ≤ b := by
      intro b hb
      rcases (List.mem_cons).1 (hperm.symm.subset hb) with hbm | hbr
      · exact hbm ▸ le_refl m
      · exact List.rel_of_sorted_cons hsorted b hbr
    have hmin : l.min? = some m :=
      (List.min?_eq_some_iff (fun a => le_refl a) (fun a b => min_choice a b)
        (fun a b c => le_min_iff)).2 ⟨hmem, hle⟩
    rw [hmin]
    rfl

/-- C3: the deterministic single-owner target selection always returns the
lexicographically smallest live shard identifier, it is invariant under any
permutation of the enumeration order, and on the live-shard set s3, s1, s2 it
selects s1. -/
theorem firstShardTarget_lex_min :
    (∀ l : List ShardId, firstShardTarget l = l.min?) ∧
    (∀ l l' : List ShardId, l.Perm l' → firstShardTarget l = firstShardTarget l') ∧
    firstShardTarget [['s', '3'], ['s', '1'], ['s', '2']] = some ['s', '1'] := by
  refine ⟨fun l => sortedHead_eq_min l, ?_, by decide⟩
  intro l l' hperm
  unfold firstShardTarget
  congr 1
  exact List.eq_of_perm_of_sorted
    ((List.perm_insertionSort (· ≤ ·) l).trans
      (hperm.trans (List.perm_insertionSort (· ≤ ·) l').symm))
    (List.sorted_insertionSort (· ≤ ·) l)
    (List.sorted_insertionSort (· ≤ ·) l')

/-- Witness for C3's permutation-invariance part at a concrete shard set. -/
theorem firstShardTarget_lex_min_witness :
    List.Perm [['s', '3'], ['s', '1'], ['s', '2']] [['s', '1'], ['s', '2'], ['s', '3']] ∧
    firstShardTarget [['s', '3'], ['s', '1'], ['s', '2']] =
      firstShardTarget [['s', '1'], ['s', '2'], ['s', '3']] :=
  ⟨by decide, firstShardTarget_lex_min.2.1 _ _ (by decide)⟩

/-- Modelled from the spec: appendDbVersionIfPresent lives in the cluster
command helpers, which are not among the shown sources; it attaches the
caller's cached database version to the outgoing command. -/
def appendDbVersionIfPresent (cmdObj : Cmd) (dbInfo : DbInfo) : Cmd :=
  { cmdObj with dbVersion := some dbInfo.version }

/-- Body of a shard's reply to the create-collection dispatch: the command
status and the collection version carried in the body. -/
structure CollRespData where
  commandStatus : Option ErrorCode
  collectionVersion : Nat
  deriving DecidableEq, Repr

/-- Embedding of executeCommandAgainstFirstShard: enumerate the live shard
identifiers, fail with IllegalOperation before any send when there are none,
otherwise sort them and target the first one, building the request batch via
buildUnshardedRequestsForAllShards on the command with the database version
attached.  The network outcome is the oracle `net`. -/
def executeCommandAgainstFirstShard (shardIds : List ShardId) (dbInfo : DbInfo)
    (cmdObj : Cmd) (net : StatusWith CollRespData) :
    List Event × StatusWith CollRespData :=
  match firstShardTarget shardIds with
  | none => ([], StatusWith.err ErrorCode.IllegalOperation)
  | some sid =>
    let reqs := buildUnshardedRequestsForAllShards [sid]
      (appendDbVersionIfPresent cmdObj dbInfo)
    (reqs.map (fun r => Event.shardSend r.shardId), net)

/-- Modelled from the spec: executeCommandAgainstDatabasePrimary lives in the
cluster command helpers, which are not among the shown sources; per the spec
all other namespaces route to the resolved database's current primary shard,
so the model sends one request to that primary and returns the network
oracle's outcome. -/
def executeCommandAgainstDatabasePrimary (dbInfo : DbInfo) (_cmdObj : Cmd)
    (net : StatusWith CollRespData) : List Event × StatusWith CollRespData :=
  ([Event.shardSend dbInfo.primary], net)

/-- Oracle environment for one `createCollection` run: the environment of the
nested createDatabase, the write-concern inputs, the base command body, the
live shard directory, and the network outcome of the dispatch. -/
structure CreateCollEnv where
  createDb : CreateDbEnv
  ctx : CreateCollCtx
  cmdBase : Nat
  shardIds : List ShardId
  dispatchResult : StatusWith CollRespData
  deriving DecidableEq, Repr

/-- Dispatch step of `cluster::createCollection`: a sharded creation in the
config database goes through executeCommandAgainstFirstShard, everything else
through executeCommandAgainstDatabasePrimary. -/
def dispatchCreateColl (env : CreateCollEnv) (dbInfo : DbInfo) :
    List Event × StatusWith CollRespData :=
  if env.ctx.isSharded && env.ctx.isConfigDB then
    executeCommandAgainstFirstShard env.shardIds dbInfo
      { base := env.cmdBase, wc := effectiveWriteConcern env.ctx } env.dispatchResult
  else
    executeCommandAgainstDatabasePrimary dbInfo
      { base := env.cmdBase, wc := effectiveWriteConcern env.ctx } env.dispatchResult

/-- Embedding of `cluster::createCollection`: resolve the database, dispatch
the command with the selected write concern, check the transport and command
statuses, then invalidate the collection's cache entry keyed to the collection
version parsed from the response, scoped to the database's primary shard. -/
def createCollection (env : CreateCollEnv) : List Event × StatusWith Unit :=
  match createDatabase env.createDb with
  | (ev1, StatusWith.err e) => (ev1, StatusWith.err e)
  | (ev1, StatusWith.ok dbInfo) =>
    match dispatchCreateColl env dbInfo with
    | (ev2, StatusWith.err e) => (ev1 ++ ev2, StatusWith.err e)
    | (ev2, StatusWith.ok rd) =>
      match rd.commandStatus with
      | some e => (ev1 ++ ev2, StatusWith.err e)
      | none =>
        (ev1 ++ ev2 ++ [Event.collCacheInvalidate rd.collectionVersion dbInfo.primary],
         StatusWith.ok ())

/-- Recogniser for collection-cache invalidation events. -/
def isCollInvalidate : Event → Bool
  | Event.collCacheInvalidate _ _ => true
  | _ => false

/-- Helper: a createDatabase run never emits a collection-cache invalidation. -/
theorem createDatabase_no_collInvalidate (env : CreateDbEnv) :
    (createDatabase env).1.filter isCollInvalidate = [] := by
  rcases env with ⟨cf, cr, us, ca⟩
  rcases cf with info | code
  · rfl
  · cases code with
    | NamespaceNotFound =>
      rcases cr with ⟨cs, ws, v⟩ | e
      · rcases us with _ | e0
        · rcases ws with _ | e1
          · rcases cs with _ | e2 <;> rfl
          · rfl
        · rfl
      · rfl
    | NamespaceExists => rfl
    | IllegalOperation => rfl
    | other n => rfl

/-- Helper: selecting from a non-empty directory yields the fold of min. -/
theorem firstShardTarget_cons_eq (x : ShardId) (xs : List ShardId) :
    firstShardTarget (x :: xs) = some (xs.foldl min x) := by
  show (List.insertionSort (· ≤ ·) (x :: xs)).head? = some (xs.foldl min x)
  rw [sortedHead_eq_min]
  rfl

/-- Helper: the dispatch step never emits a collection-cache invalidation. -/
theorem dispatch_no_collInvalidate (env : CreateCollEnv) (dbInfo : DbInfo) :
    (dispatchCreateColl env dbInfo).1.filter isCollInvalidate = [] := by
  unfold dispatchCreateColl executeCommandAgainstFirstShard
  cases hc : env.ctx.isSharded && env.ctx.isConfigDB
  · rfl
  · rcases h : firstShardTarget env.shardIds with _ | s
    · rfl
    · rfl

/-- Helper: when the first-shard path is only taken with a non-empty directory,
the dispatch returns the network oracle's outcome. -/
theorem dispatch_result_eq (env : CreateCollEnv) (dbInfo : DbInfo)
    (h : (env.ctx.isSharded && env.ctx.isConfigDB) = true → env.shardIds ≠ []) :
    (dispatchCreateColl env dbInfo).2 = env.dispatchResult := by
  unfold dispatchCreateColl executeCommandAgainstFirstShard
  cases hc : env.ctx.isSharded && env.ctx.isConfigDB
  · rfl
  · rcases hids : env.shardIds with _ | ⟨x, xs⟩
    · exact absurd hids (h hc)
    · rw [firstShardTarget_cons_eq x xs]
      rfl

/-- Helper: the shape of a fully successful createCollection run — the trace
is the createDatabase trace, then the dispatch trace, then one collection-cache
invalidation keyed to the returned collection version and scoped to the
database's primary shard. -/
theorem createCollection_success_eq (env : CreateCollEnv) (info : DbInfo) (rd : CollRespData)
    (h1 : (createDatabase env.createDb).2 = StatusWith.ok info)
    (h2 : (dispatchCreateColl env info).2 = StatusWith.ok rd)
    (h3 : rd.commandStatus = none) :
    createCollection env =
      ((createDatabase env.createDb).1 ++ (dispatchCreateColl env info).1 ++
        [Event.collCacheInvalidate rd.collectionVersion info.primary],
       StatusWith.ok ()) := by
  unfold createCollection
  split
  · rename_i ev1 e heq
    rw [heq] at h1
    simp at h1
  · rename_i ev1 dbInfo heq
    rw [heq] at h1
    have hinfo : dbInfo = info := by simpa using h1
    subst hinfo
    split
    · rename_i ev2 e heq2
      rw [heq2] at h2
      simp at h2
    · rename_i ev2 rd0 heq2
      rw [heq2] at h2
      have hrd : rd0 = rd := by simpa using h2
      subst hrd
      rw [h3, heq, heq2]

/-- A concrete environment with an empty shard directory, a database that does
not exist yet, and a non-config target namespace. -/
def envC4 : CreateCollEnv :=
  { createDb :=
    { cacheFirst := StatusWith.err ErrorCode.NamespaceNotFound
      configResponse := StatusWith.ok ⟨none, none, 5⟩
      unyieldStatus := none
      cacheAfter := StatusWith.ok ⟨['s', 'h', 'A'], 5⟩ }
    ctx := ⟨false, false, none, false⟩
    cmdBase := 0
    shardIds := []
    dispatchResult := StatusWith.ok ⟨none, 7⟩ }

/-- C4 counterexample: with an empty shard directory, createCollection (here on
the database-primary path, with the database not yet cached) still calls the
authority and sends to the database primary, and does not return
IllegalOperation — the empty-directory guard exists only on the first-shard
path, refuting the claim as stated. -/
theorem createCollection_empty_directory_counterexample :
    envC4.shardIds = [] ∧
    Event.authorityCall ∈ (createCollection envC4).1 ∧
    Event.shardSend ['s', 'h', 'A'] ∈ (createCollection envC4).1 ∧
    (createCollection envC4).2 ≠ StatusWith.err ErrorCode.IllegalOperation := by
  decide

/-- C4 (amended): only the first-shard dispatch path — taken by
createCollection for a sharded creation in the config database — returns the
fatal IllegalOperation on an empty shard directory without any network call
(given the database is already cached, the whole event trace is empty);
createDatabase itself and the database-primary path perform no such check. -/
theorem createCollection_firstShard_empty_directory (env : CreateCollEnv) (info : DbInfo)
    (h1 : env.shardIds = []) (h2 : env.ctx.isSharded = true) (h3 : env.ctx.isConfigDB = true)
    (h4 : env.createDb.cacheFirst = StatusWith.ok info) :
    createCollection env = ([], StatusWith.err ErrorCode.IllegalOperation) := by
  have hdb := createDatabase_cache_hit env.createDb info h4
  have hdisp : dispatchCreateColl env info = ([], StatusWith.err ErrorCode.IllegalOperation) := by
    unfold dispatchCreateColl executeCommandAgainstFirstShard
    rw [h2, h3, h1]
    rfl
  unfold createCollection
  split
  · rename_i ev1 e heq
    rw [hdb] at heq
    simp at heq
  · rename_i ev1 dbInfo heq
    rw [hdb] at heq
    have hev : ([] : List Event) = ev1 := congrArg Prod.fst heq
    have hsnd := congrArg Prod.snd heq
    injection hsnd with hinfo
    subst hinfo
    split
    · rename_i ev2 e heq2
      rw [hdisp] at heq2
      have hev2 : ([] : List Event) = ev2 := congrArg Prod.fst heq2
      have hsnd2 := congrArg Prod.snd heq2
      injection hsnd2 with hcode
      rw [← hev, ← hev2, ← hcode]
      rfl
    · rename_i ev2 rd0 heq2
      rw [hdisp] at heq2
      have hsnd2 := congrArg Prod.snd heq2
      exact StatusWith.noConfusion hsnd2

/-- A concrete environment on the first-shard path with a cached database and
an empty shard directory. -/
def envC4fs : CreateCollEnv :=
  { createDb := envFastPath
    ctx := ⟨true, true, none, false⟩
    cmdBase := 2
    shardIds := []
    dispatchResult := StatusWith.ok ⟨none, 9⟩ }

/-- Witness for the amended C4 at a concrete environment. -/
theorem createCollection_firstShard_empty_directory_witness :
    envC4fs.shardIds = [] ∧
    envC4fs.ctx.isSharded = true ∧
    envC4fs.ctx.isConfigDB = true ∧
    envC4fs.createDb.cacheFirst = StatusWith.ok ⟨['s', 'h', 'A'], 3⟩ ∧
    createCollection envC4fs = ([], StatusWith.err ErrorCode.IllegalOperation) :=
  ⟨rfl, rfl, rfl, rfl,
    createCollection_firstShard_empty_directory envC4fs ⟨['s', 'h', 'A'], 3⟩ rfl rfl rfl rfl⟩

/-- C7: when the dispatch succeeds and the response's command status is OK,
createCollection succeeds and the topology cache receives exactly one
collection-entry invalidation, keyed to exactly the collection version parsed
from the response and scoped to the database's primary shard. -/
theorem createCollection_invalidates_with_returned_version (env : CreateCollEnv)
    (info : DbInfo) (rd : CollRespData)
    (h1 : (createDatabase env.createDb).2 = StatusWith.ok info)
    (h2 : env.dispatchResult = StatusWith.ok rd)
    (h3 : rd.commandStatus = none)
    (h4 : (env.ctx.isSharded && env.ctx.isConfigDB) = true → env.shardIds ≠ []) :
    (createCollection env).2 = StatusWith.ok () ∧
    (createCollection env).1.filter isCollInvalidate =
      [Event.collCacheInvalidate rd.collectionVersion info.primary] := by
  have hd2 : (dispatchCreateColl env info).2 = StatusWith.ok rd := by
    rw [dispatch_result_eq env info h4, h2]
  have hmain := createCollection_success_eq env info rd h1 hd2 h3
  constructor
  · rw [hmain]
  · rw [hmain]
    simp only [List.filter_append, createDatabase_no_collInvalidate,
      dispatch_no_collInvalidate]
    simp [isCollInvalidate]

/-- A concrete environment on the first-shard path with a cached database, two
live shards and a successful dispatch returning collection version 7. -/
def envC7 : CreateCollEnv :=
  { createDb := envFastPath
    ctx := ⟨true, true, none, false⟩
    cmdBase := 1
    shardIds := [['s', '2'], ['s', '1']]
    dispatchResult := StatusWith.ok ⟨none, 7⟩ }

/-- Witness for C7 at a concrete environment. -/
theorem createCollection_invalidates_with_returned_version_witness :
    (createDatabase envC7.createDb).2 = StatusWith.ok ⟨['s', 'h', 'A'], 3⟩ ∧
    envC7.dispatchResult = StatusWith.ok ⟨none, 7⟩ ∧
    (createCollection envC7).2 = StatusWith.ok () ∧
    (createCollection envC7).1.filter isCollInvalidate =
      [Event.collCacheInvalidate 7 ['s', 'h', 'A']] := by
  refine ⟨rfl, rfl, ?_, ?_⟩
  · exact (createCollection_invalidates_with_returned_version envC7
      ⟨['s', 'h', 'A'], 3⟩ ⟨none, 7⟩ rfl rfl rfl (fun _ => by decide)).1
  · exact (createCollection_invalidates_with_returned_version envC7
      ⟨['s', 'h', 'A'], 3⟩ ⟨none, 7⟩ rfl rfl rfl (fun _ => by decide)).2

/-- Body of the target shard's reply on the legacy path: the create command's
status and the write-concern status extracted from the same response document. -/
structure ShardCmdResult where
  commandStatus : Option ErrorCode
  wcStatus : Option ErrorCode
  deriving DecidableEq, Repr

/-- Oracle environment for one `createLegacyUnshardedCollection` run: the
nested createDatabase environment, the database lookup performed inside the
routing closure, and the transport outcome of the create command sent to the
database primary. -/
structure LegacyEnv where
  createDb : CreateDbEnv
  routeDbLookup : StatusWith DbInfo
  sendResult : StatusWith ShardCmdResult
  deriving DecidableEq, Repr

/-- Status-checking tail of the legacy path: a NamespaceExists command status
is not surfaced, any other non-OK command status is, and then the
write-concern status of the same response is checked. -/
def legacyOutcome (rd : ShardCmdResult) : StatusWith Unit :=
  match rd.commandStatus with
  | some e =>
    if e = ErrorCode.NamespaceExists then
      match rd.wcStatus with
      | some w => StatusWith.err w
      | none => StatusWith.ok ()
    else StatusWith.err e
  | none =>
    match rd.wcStatus with
    | some w => StatusWith.err w
    | none => StatusWith.ok ()

/-- Embedding of `cluster::createLegacyUnshardedCollection`: resolve the
database, look the database up again inside the routing closure, send the
plain create command to the database primary, then run the status checks of
`legacyOutcome` on the response. -/
def createLegacyUnshardedCollection (env : LegacyEnv) : List Event × StatusWith Unit :=
  match createDatabase env.createDb with
  | (ev1, StatusWith.err e) => (ev1, StatusWith.err e)
  | (ev1, StatusWith.ok _) =>
    match env.routeDbLookup with
    | StatusWith.err e => (ev1, StatusWith.err e)
    | StatusWith.ok dbInfo =>
      let ev2 := ev1 ++ [Event.shardSend dbInfo.primary]
      match env.sendResult with
      | StatusWith.err e => (ev2, StatusWith.err e)
      | StatusWith.ok rd => (ev2, legacyOutcome rd)

/-- Helper: the shape of a legacy run that reaches the status checks. -/
theorem legacy_reaches_checks (env : LegacyEnv) (info dbInfo : DbInfo) (rd : ShardCmdResult)
    (h1 : (createDatabase env.createDb).2 = StatusWith.ok info)
    (h2 : env.routeDbLookup = StatusWith.ok dbInfo)
    (h3 : env.sendResult = StatusWith.ok rd) :
    createLegacyUnshardedCollection env =
      ((createDatabase env.createDb).1 ++ [Event.shardSend dbInfo.primary],
       legacyOutcome rd) := by
  unfold createLegacyUnshardedCollection
  split
  · rename_i ev1 e heq
    rw [heq] at h1
    simp at h1
  · rename_i ev1 u heq
    rw [h2, h3, heq]

/-- C5: on the legacy-unsharded-collection path, a NamespaceExists response
from the target shard is swallowed as success (absent a write-concern error),
while every other non-OK command status on that path is surfaced as an error. -/
theorem createLegacyUnshardedCollection_namespaceExists_swallowed (env : LegacyEnv)
    (info dbInfo : DbInfo) (rd : ShardCmdResult)
    (h1 : (createDatabase env.createDb).2 = StatusWith.ok info)
    (h2 : env.routeDbLookup = StatusWith.ok dbInfo)
    (h3 : env.sendResult = StatusWith.ok rd) :
    (rd.commandStatus = some ErrorCode.NamespaceExists → rd.wcStatus = none →
      (createLegacyUnshardedCollection env).2 = StatusWith.ok ()) ∧
    (∀ e, rd.commandStatus = some e → e ≠ ErrorCode.NamespaceExists →
      (createLegacyUnshardedCollection env).2 = StatusWith.err e) := by
  have hmain := legacy_reaches_checks env info dbInfo rd h1 h2 h3
  constructor
  · intro hc hw
    rw [hmain]
    simp [legacyOutcome, hc, hw]
  · intro e hc hne
    rw [hmain]
    simp [legacyOutcome, hc, hne]

/-- A concrete legacy environment whose shard reports NamespaceExists with a
clean write concern. -/
def envC5 : LegacyEnv :=
  { createDb := envFastPath
    routeDbLookup := StatusWith.ok ⟨['s', 'h', 'A'], 3⟩
    sendResult := StatusWith.ok ⟨some ErrorCode.NamespaceExists, none⟩ }

/-- A concrete legacy environment whose shard reports a different error. -/
def envC5b : LegacyEnv :=
  { createDb := envFastPath
    routeDbLookup := StatusWith.ok ⟨['s', 'h', 'A'], 3⟩
    sendResult := StatusWith.ok ⟨some (ErrorCode.other 11), none⟩ }

/-- Witness for C5 at concrete environments, exercising both halves. -/
theorem createLegacyUnshardedCollection_namespaceExists_swallowed_witness :
    (createDatabase envC5.createDb).2 = StatusWith.ok ⟨['s', 'h', 'A'], 3⟩ ∧
    envC5.sendResult = StatusWith.ok ⟨some ErrorCode.NamespaceExists, none⟩ ∧
    (createLegacyUnshardedCollection envC5).2 = StatusWith.ok () ∧
    (createLegacyUnshardedCollection envC5b).2 = StatusWith.err (ErrorCode.other 11) := by
  refine ⟨rfl, rfl, ?_, ?_⟩
  · exact (createLegacyUnshardedCollection_namespaceExists_swallowed envC5
      ⟨['s', 'h', 'A'], 3⟩ ⟨['s', 'h', 'A'], 3⟩ ⟨some ErrorCode.NamespaceExists, none⟩
      rfl rfl rfl).1 rfl rfl
  · exact (createLegacyUnshardedCollection_namespaceExists_swallowed envC5b
      ⟨['s', 'h', 'A'], 3⟩ ⟨['s', 'h', 'A'], 3⟩ ⟨some (ErrorCode.other 11), none⟩
      rfl rfl rfl).2 (ErrorCode.other 11) rfl (by decide)

/-- C10: on the legacy path, the write-concern status of the shard's response
is checked even when the command status was the swallowed NamespaceExists: an
already-exists race does not hide a write-concern failure. -/
theorem createLegacyUnshardedCollection_wc_error_after_namespaceExists (env : LegacyEnv)
    (info dbInfo : DbInfo) (rd : ShardCmdResult) (w : ErrorCode)
    (h1 : (createDatabase env.createDb).2 = StatusWith.ok info)
    (h2 : env.routeDbLookup = StatusWith.ok dbInfo)
    (h3 : env.sendResult = StatusWith.ok rd)
    (h4 : rd.commandStatus = some ErrorCode.NamespaceExists)
    (h5 : rd.wcStatus = some w) :
    (createLegacyUnshardedCollection env).2 = StatusWith.err w := by
  rw [legacy_reaches_checks env info dbInfo rd h1 h2 h3]
  simp [legacyOutcome, h4, h5]

/-- A concrete legacy environment with the NamespaceExists race and a failing
write concern on the same response. -/
def envC10 : LegacyEnv :=
  { createDb := envFastPath
    routeDbLookup := StatusWith.ok ⟨['s', 'h', 'A'], 3⟩
    sendResult := StatusWith.ok ⟨some ErrorCode.NamespaceExists, some (ErrorCode.other 64)⟩ }

/-- Witness for C10 at a concrete environment. -/
theorem createLegacyUnshardedCollection_wc_error_after_namespaceExists_witness :
    envC10.sendResult =
      StatusWith.ok ⟨some ErrorCode.NamespaceExists, some (ErrorCode.other 64)⟩ ∧
    (createLegacyUnshardedCollection envC10).2 = StatusWith.err (ErrorCode.other 64) :=
  ⟨rfl, createLegacyUnshardedCollection_wc_error_after_namespaceExists envC10
    ⟨['s', 'h', 'A'], 3⟩ ⟨['s', 'h', 'A'], 3⟩
    ⟨some ErrorCode.NamespaceExists, some (ErrorCode.other 64)⟩ (ErrorCode.other 64)
    rfl rfl rfl rfl rfl⟩

end ClusterDDL
